import Mathlib

/-!
Shallow embedding of `diagnostics/visualize.py` (treecal repository):
the LED-position loader, statistics printer, cone-outline helper,
3D/2D renderers and the command-line driver, together with theorems
settling the specification claims about them.

Python floats are modelled as exact rationals (`ℚ`); the trigonometric
cone-outline points live in `ℝ`.  Fallible Python code (KeyError,
ZeroDivisionError, `min`/`max` of an empty sequence, `range` with step 0)
is modelled with `Except`/`Option`.
-/

/-- One position record of the input JSON (`data['positions'][i]`). -/
structure PosRecord where
  x : ℚ
  y : ℚ
  z : ℚ
  height : ℚ
  angle : ℚ
  confidence : ℚ
  predicted : Bool
deriving DecidableEq, Repr

/-- The metadata dictionary built by `load_led_positions` (lines 24-30). -/
structure Metadata where
  total_leds : ℤ
  tree_height : ℚ
  num_cameras : ℤ
  num_observed : ℤ
  num_predicted : ℤ
deriving DecidableEq, Repr

/-- The top-level JSON document: each key either present (`some`) or absent
(`none`), as probed by `data[k]` / `data.get(k, 0)` in the loader. -/
structure InputDoc where
  positions : Option (List PosRecord)
  total_leds : Option ℤ
  tree_height : Option ℚ
  num_cameras : Option ℤ
  num_observed : Option ℤ
  num_predicted : Option ℤ
deriving DecidableEq, Repr

/-- Python `data[key]`: raises `KeyError` when the key is absent. -/
def keyGet {α : Type} (field : Option α) (key : String) : Except String α :=
  match field with
  | some v => .ok v
  | none => .error ("KeyError: " ++ key)

/-- `load_led_positions` (visualize.py lines 18-32): required keys
`positions`, `total_leds`, `tree_height` via `data[...]`, the three
optional counters via `data.get(..., 0)`. -/
def load_led_positions (d : InputDoc) :
    Except String (List PosRecord × Metadata) := do
  let positions ← keyGet d.positions "positions"
  let total ← keyGet d.total_leds "total_leds"
  let height ← keyGet d.tree_height "tree_height"
  pure (positions,
    { total_leds := total
      tree_height := height
      num_cameras := d.num_cameras.getD 0
      num_observed := d.num_observed.getD 0
      num_predicted := d.num_predicted.getD 0 })

/-- `[p for p in positions if not p['predicted']]` (lines 39, 210). -/
def observedOf (positions : List PosRecord) : List PosRecord :=
  positions.filter (fun p => !p.predicted)

/-- `[p for p in positions if p['predicted']]` (line 40). -/
def predictedOf (positions : List PosRecord) : List PosRecord :=
  positions.filter (fun p => p.predicted)

/-- The confidence block of `print_statistics` (lines 213-218). -/
structure ConfStats where
  mean : ℚ
  minC : ℚ
  maxC : ℚ
  highCount : ℕ
  highPct : ℚ
deriving DecidableEq, Repr

/-- Confidence statistics over the observed subset (lines 210-218):
`none` when the observed subset is empty (the block is skipped),
otherwise `np.mean`/`np.min`/`np.max` of the confidences and the
count/percentage with confidence > 0.8. -/
def confidenceStats (positions : List PosRecord) : Option ConfStats :=
  match (observedOf positions).map (fun p => p.confidence) with
  | [] => none
  | c :: cs =>
    let confidences := c :: cs
    some
      { mean := confidences.sum / confidences.length
        minC := cs.foldl min c
        maxC := cs.foldl max c
        highCount := (confidences.filter (fun v => (0.8 : ℚ) < v)).length
        highPct := 100 * ((confidences.filter (fun v => (0.8 : ℚ) < v)).length : ℚ)
            / confidences.length }

/-- `(min(l), max(l))` of the nonempty list `c :: cs`. -/
def minmaxOf (c : ℚ) (cs : List ℚ) : ℚ × ℚ :=
  (cs.foldl min c, cs.foldl max c)

/-- What one run of `print_statistics` (lines 192-236) reports. -/
structure StatsReport where
  total_leds : ℤ
  tree_height : ℚ
  cameraLine : Option ℤ
  observedPct : ℚ
  predictedPct : ℚ
  confidence : Option ConfStats
  xRange : ℚ × ℚ
  yRange : ℚ × ℚ
  zRange : ℚ × ℚ
  heightRange : ℚ × ℚ
  angleRange : ℚ × ℚ
deriving DecidableEq, Repr

/-- How `print_statistics` can abort: `ZeroDivisionError` from the
percentage lines 205/207, or `ValueError` from `min()`/`max()` of an
empty sequence in the spatial block (lines 227-234). -/
inductive StatsError where
  | divisionByZero : StatsError
  | emptySequence : StatsError
deriving DecidableEq, Repr

/-- `print_statistics` (lines 192-236).  The camera line is printed only
when `num_cameras` is truthy (nonzero); the observed/predicted
percentages divide by `total_leds` and raise first when it is zero; the
confidence block is skipped when the observed subset is empty; the
spatial/angular ranges `min(...)`/`max(...)` raise when `positions` is
empty. -/
def print_statistics (positions : List PosRecord) (m : Metadata) :
    Except StatsError StatsReport :=
  if m.total_leds = 0 then .error .divisionByZero
  else
    match positions with
    | [] => .error .emptySequence
    | p :: ps =>
      .ok
        { total_leds := m.total_leds
          tree_height := m.tree_height
          cameraLine := if m.num_cameras ≠ 0 then some m.num_cameras else none
          observedPct := 100 * (m.num_observed : ℚ) / (m.total_leds : ℚ)
          predictedPct := 100 * (m.num_predicted : ℚ) / (m.total_leds : ℚ)
          confidence := confidenceStats positions
          xRange := minmaxOf p.x (ps.map (fun q => q.x))
          yRange := minmaxOf p.y (ps.map (fun q => q.y))
          zRange := minmaxOf p.z (ps.map (fun q => q.z))
          heightRange := minmaxOf p.height (ps.map (fun q => q.height))
          angleRange := minmaxOf p.angle (ps.map (fun q => q.angle)) }

/-- A 3D point produced by `draw_cone_outline`. -/
structure Point3 where
  x : ℝ
  y : ℝ
  z : ℝ

/-- Fallback point for out-of-range indexing (never reached by the cone
segment loop, whose indices stay below `num_points`). -/
def origin : Point3 := ⟨0, 0, 0⟩

/-- Python `list(range(0, stop, step))` for `step > 0`: the
`⌈stop/step⌉` values `0, step, 2*step, ...` below `stop`. -/
def rangeStep (stop step : ℕ) : List ℕ :=
  (List.range ((stop + step - 1) / step)).map (fun k => k * step)

/-- `np.linspace(0, 2*np.pi, num_points)` at index `i`:
`2π · i / (num_points - 1)` (line 108). -/
noncomputable def thetaAt (num_points i : ℕ) : ℝ :=
  2 * Real.pi * i / ((num_points - 1 : ℕ) : ℝ)

/-- The artefact of `draw_cone_outline`: the two dashed circles and the
dashed bottom-to-top line segments. -/
structure ConeOutline where
  bottom : List Point3
  top : List Point3
  lines : List (Point3 × Point3)

/-- `draw_cone_outline` (visualize.py lines 101-129): bottom circle of
radius `height * 0.25` at z = 0, top circle of radius `height * 0.025`
at z = `height`, both sampled at the `num_points` linspace angles, and
one connecting segment per index of `range(0, num_points, num_points // 8)`.
`none` models the `ValueError` that `range` raises when the step
`num_points // 8` is zero. -/
noncomputable def draw_cone_outline (height : ℝ) (num_points : ℕ := 50) :
    Option ConeOutline :=
  if num_points / 8 = 0 then none
  else
    let base_radius := height * 0.25
    let top_radius := height * 0.025
    let bottom := (List.range num_points).map (fun i =>
      (⟨base_radius * Real.cos (thetaAt num_points i),
        base_radius * Real.sin (thetaAt num_points i), 0⟩ : Point3))
    let top := (List.range num_points).map (fun i =>
      (⟨top_radius * Real.cos (thetaAt num_points i),
        top_radius * Real.sin (thetaAt num_points i), height⟩ : Point3))
    some
      { bottom := bottom
        top := top
        lines := (rangeStep num_points (num_points / 8)).map (fun i =>
          (bottom.getD i origin, top.getD i origin)) }

/-- Python truthiness of an optional string argument: `None` and the
empty string are falsy (`if save_path:`, `args.save`). -/
def pyTruthy : Option String → Bool
  | none => false
  | some s => !s.isEmpty

/-- The save-or-show tail shared by both renderers (lines 94-98 and
185-189): either `plt.savefig(path)` plus a printed confirmation, or
`plt.show()`. -/
inductive RenderOutput where
  | saved : String → String → RenderOutput
  | shown : RenderOutput
deriving DecidableEq, Repr

/-- The figure built by `visualize_3d` (lines 35-98). -/
structure Fig3D where
  obsPoints : List (ℚ × ℚ × ℚ)
  obsConfColors : Option (List ℚ)
  colorbar : Bool
  predPoints : Option (List (ℚ × ℚ × ℚ))
  cone : Option ConeOutline
  xlim : ℚ × ℚ
  ylim : ℚ × ℚ
  zlim : ℚ × ℚ

/-- `visualize_3d` (lines 35-98): partitions the records by the
`predicted` flag, plots the observed subset (confidence-coloured with a
colorbar when `show_confidence`), plots the predicted subset only when
nonempty, overlays `draw_cone_outline(tree_height)`, sets the axis
limits from `max_range = tree_height / 2`, and finally saves to
`save_path` (printing a confirmation) when it is truthy, otherwise
shows the figure. -/
noncomputable def visualize_3d (positions : List PosRecord) (m : Metadata)
    (show_confidence : Bool := false) (save_path : Option String := none) :
    Fig3D × RenderOutput :=
  let observed := observedOf positions
  let predicted := predictedOf positions
  let max_range := m.tree_height / 2
  ({ obsPoints := observed.map (fun p => (p.x, p.y, p.z))
     obsConfColors :=
       if show_confidence then some (observed.map (fun p => p.confidence)) else none
     colorbar := show_confidence
     predPoints :=
       if predicted.isEmpty then none
       else some (predicted.map (fun p => (p.x, p.y, p.z)))
     cone := draw_cone_outline (m.tree_height : ℝ) 50
     xlim := (-max_range, max_range)
     ylim := (-max_range, max_range)
     zlim := (0, m.tree_height) },
   if pyTruthy save_path then
     .saved (save_path.getD "") ("Saved visualization to " ++ save_path.getD "")
   else .shown)

/-- One 2D panel of `visualize_2d_projections`: the observed scatter and
the predicted scatter. -/
structure Panel2D where
  obs : List (ℚ × ℚ)
  pred : List (ℚ × ℚ)
deriving DecidableEq, Repr

/-- The figure built by `visualize_2d_projections` (lines 132-189). -/
structure Fig2D where
  topView : Panel2D
  sideView : Panel2D
  frontView : Panel2D
deriving DecidableEq, Repr

/-- `visualize_2d_projections` (lines 132-189): top (x,y), side (x,z)
and front (y,z) panels, each split by the `predicted` flag, then the
same save-or-show tail with its own confirmation message. -/
def visualize_2d_projections (positions : List PosRecord) (m : Metadata)
    (save_path : Option String := none) : Fig2D × RenderOutput :=
  let observed := fun p : PosRecord => !p.predicted
  ({ topView :=
       { obs := (positions.filter observed).map (fun p => (p.x, p.y))
         pred := (positions.filter (fun p => !observed p)).map (fun p => (p.x, p.y)) }
     sideView :=
       { obs := (positions.filter observed).map (fun p => (p.x, p.z))
         pred := (positions.filter (fun p => !observed p)).map (fun p => (p.x, p.z)) }
     frontView :=
       { obs := (positions.filter observed).map (fun p => (p.y, p.z))
         pred := (positions.filter (fun p => !observed p)).map (fun p => (p.y, p.z)) } },
   if pyTruthy save_path then
     .saved (save_path.getD "") ("Saved projections to " ++ save_path.getD "")
   else .shown)

/-- The parsed command-line arguments of `main` (lines 240-268). -/
structure Args where
  confidence : Bool
  save : Option String
  projections : Bool
  stats : Bool
deriving DecidableEq, Repr

/-- Line 276: `if args.stats or not (args.projections or args.save):`
decides whether `print_statistics` runs. -/
def statsPrinted (a : Args) : Bool :=
  a.stats || !(a.projections || pyTruthy a.save)

/-- Which renderer `main` invokes (lines 280-284). -/
inductive RenderCall where
  | skipped : RenderCall
  | projections : Option String → RenderCall
  | threeD : Bool → Option String → RenderCall
deriving DecidableEq, Repr

/-- Lines 280-284: no rendering under `--stats`, otherwise the 2D
projections or the 3D view, each receiving `args.save`. -/
def renderCall (a : Args) : RenderCall :=
  if a.stats then .skipped
  else if a.projections then .projections a.save
  else .threeD a.confidence a.save

/-- Four all-observed records with confidences 0.2, 0.5, 0.9, 1.0 — the
spec's statistics scenario. -/
def demoRecords : List PosRecord :=
  [⟨0, 0, 0, 0, 0, 1/5, false⟩, ⟨0, 0, 0, 0, 0, 1/2, false⟩,
   ⟨0, 0, 0, 0, 0, 9/10, false⟩, ⟨0, 0, 0, 0, 0, 1, false⟩]

/-- Metadata with `total_leds = 0` (degenerate, per §7 of the spec). -/
def mZero : Metadata := ⟨0, 0, 0, 0, 0⟩

/-- Metadata with tree height 10 — the spec's axis-bounds scenario. -/
def mTen : Metadata := ⟨0, 10, 0, 0, 0⟩

/-! ## Helper lemmas on folded minima and maxima -/

lemma foldl_min_le_init (cs : List ℚ) : ∀ a : ℚ, cs.foldl min a ≤ a := by
  induction cs with
  | nil => intro a; simp
  | cons b l ih => intro a; exact le_trans (ih (min a b)) (min_le_left a b)

lemma foldl_min_le_mem (cs : List ℚ) : ∀ a x : ℚ, x ∈ cs → cs.foldl min a ≤ x := by
  induction cs with
  | nil => intro a x hx; cases hx
  | cons b l ih =>
    intro a x hx
    rcases List.mem_cons.mp hx with rfl | hx
    · exact le_trans (foldl_min_le_init l (min a x)) (min_le_right a x)
    · exact ih (min a b) x hx

lemma foldl_min_mem (cs : List ℚ) :
    ∀ a : ℚ, cs.foldl min a = a ∨ cs.foldl min a ∈ cs := by
  induction cs with
  | nil => intro a; exact Or.inl rfl
  | cons b l ih =>
    intro a
    rcases ih (min a b) with h | h
    · rcases min_choice a b with hab | hab
      · exact Or.inl (h.trans hab)
      · exact Or.inr (List.mem_cons.mpr (Or.inl (h.trans hab)))
    · exact Or.inr (List.mem_cons.mpr (Or.inr h))

lemma init_le_foldl_max (cs : List ℚ) : ∀ a : ℚ, a ≤ cs.foldl max a := by
  induction cs with
  | nil => intro a; simp
  | cons b l ih => intro a; exact le_trans (le_max_left a b) (ih (max a b))

lemma mem_le_foldl_max (cs : List ℚ) : ∀ a x : ℚ, x ∈ cs → x ≤ cs.foldl max a := by
  induction cs with
  | nil => intro a x hx; cases hx
  | cons b l ih =>
    intro a x hx
    rcases List.mem_cons.mp hx with rfl | hx
    · exact le_trans (le_max_right a x) (init_le_foldl_max l (max a x))
    · exact ih (max a b) x hx

lemma foldl_max_mem (cs : List ℚ) :
    ∀ a : ℚ, cs.foldl max a = a ∨ cs.foldl max a ∈ cs := by
  induction cs with
  | nil => intro a; exact Or.inl rfl
  | cons b l ih =>
    intro a
    rcases ih (max a b) with h | h
    · rcases max_choice a b with hab | hab
      · exact Or.inl (h.trans hab)
      · exact Or.inr (List.mem_cons.mpr (Or.inl (h.trans hab)))
    · exact Or.inr (List.mem_cons.mpr (Or.inr h))

lemma getD_map_range {α : Type} (n i : ℕ) (f : ℕ → α) (d : α) (h : i < n) :
    ((List.range n).map f).getD i d = f i := by
  rw [List.getD_eq_getElem?_getD, List.getElem?_map, List.getElem?_range h]
  rfl

/-! ## Claims -/

/-- C5: for every list of position records, the partition by the
`predicted` flag is complete and disjoint:
`len(observed) + len(predicted) = len(positions)`. -/
theorem C5_partition_complete (positions : List PosRecord) :
    (observedOf positions).length + (predictedOf positions).length
      = positions.length := by
  induction positions with
  | nil => rfl
  | cons p ps ih =>
    simp only [observedOf, predictedOf, List.filter_cons] at ih ⊢
    cases hp : p.predicted <;> simp [hp] <;> omega

/-- C4: the loader errors when any of the required keys `positions`,
`total_leds`, `tree_height` is absent; when all three are present it
returns the positions sequence together with metadata whose optional
counters take the input value when present and 0 when absent. -/
theorem C4_loader_required_and_defaults (d : InputDoc) :
    ((d.positions = none ∨ d.total_leds = none ∨ d.tree_height = none) →
      ∃ e, load_led_positions d = .error e) ∧
    (∀ ps t th, d.positions = some ps → d.total_leds = some t →
      d.tree_height = some th →
      ∃ meta, load_led_positions d = .ok (ps, meta) ∧
        meta.total_leds = t ∧ meta.tree_height = th ∧
        (∀ v, d.num_cameras = some v → meta.num_cameras = v) ∧
        (d.num_cameras = none → meta.num_cameras = 0) ∧
        (∀ v, d.num_observed = some v → meta.num_observed = v) ∧
        (d.num_observed = none → meta.num_observed = 0) ∧
        (∀ v, d.num_predicted = some v → meta.num_predicted = v) ∧
        (d.num_predicted = none → meta.num_predicted = 0)) := by
  obtain ⟨dp, dt, dh, dc, dobs, dpred⟩ := d
  constructor
  · intro h
    cases dp with
    | none => exact ⟨"KeyError: positions", rfl⟩
    | some ps =>
      cases dt with
      | none => exact ⟨"KeyError: total_leds", rfl⟩
      | some t =>
        cases dh with
        | none => exact ⟨"KeyError: tree_height", rfl⟩
        | some th => rcases h with h | h | h <;> simp_all
  · intro ps t th hp ht hh
    cases hp; cases ht; cases hh
    exact ⟨⟨t, th, dc.getD 0, dobs.getD 0, dpred.getD 0⟩, rfl, rfl, rfl,
      fun v hv => by rw [show dc = some v from hv]; rfl,
      fun hv => by rw [show dc = none from hv]; rfl,
      fun v hv => by rw [show dobs = some v from hv]; rfl,
      fun hv => by rw [show dobs = none from hv]; rfl,
      fun v hv => by rw [show dpred = some v from hv]; rfl,
      fun hv => by rw [show dpred = none from hv]; rfl⟩

/-- C3: with `total_leds = 0` the statistics printer aborts with the
division-by-zero error from the percentage lines, and with
`total_leds ≠ 0` every successful report carries the percentages
`100 * num_observed / total_leds` and `100 * num_predicted / total_leds`. -/
theorem C3_percentage_division (positions : List PosRecord) (m : Metadata) :
    (m.total_leds = 0 →
      print_statistics positions m = .error .divisionByZero) ∧
    (m.total_leds ≠ 0 → ∀ r, print_statistics positions m = .ok r →
      r.observedPct = 100 * (m.num_observed : ℚ) / (m.total_leds : ℚ) ∧
      r.predictedPct = 100 * (m.num_predicted : ℚ) / (m.total_leds : ℚ)) := by
  constructor
  · intro h
    simp [print_statistics, h]
  · intro h r hr
    unfold print_statistics at hr
    rw [if_neg h] at hr
    cases positions with
    | nil => exact (Except.noConfusion hr)
    | cons p ps =>
      cases hr
      exact ⟨rfl, rfl⟩

/-- C2: whenever the observed subset is nonempty, the reported
confidence statistics are those of the confidences of the records whose
`predicted` flag is false: the mean is their sum over their count, the
minimum/maximum are attained members bounding every confidence, and the
high-confidence figures count exactly the confidences strictly above
0.8.  (Witness: the spec's scenario [0.2, 0.5, 0.9, 1.0] with mean
0.65, min 0.2, max 1.0, count 2, 50%.) -/
theorem C2_confidence_statistics (positions : List PosRecord)
    (h : (observedOf positions).map (fun p => p.confidence) ≠ []) :
    ∃ s, confidenceStats positions = some s ∧
      (∀ m r, print_statistics positions m = .ok r → r.confidence = some s) ∧
      s.mean = ((observedOf positions).map (fun p => p.confidence)).sum
        / (((observedOf positions).map (fun p => p.confidence)).length : ℚ) ∧
      s.minC ∈ (observedOf positions).map (fun p => p.confidence) ∧
      (∀ c ∈ (observedOf positions).map (fun p => p.confidence), s.minC ≤ c) ∧
      s.maxC ∈ (observedOf positions).map (fun p => p.confidence) ∧
      (∀ c ∈ (observedOf positions).map (fun p => p.confidence), c ≤ s.maxC) ∧
      s.highCount = (((observedOf positions).map (fun p => p.confidence)).filter
        (fun c => (0.8 : ℚ) < c)).length ∧
      s.highPct = 100 * (s.highCount : ℚ)
        / (((observedOf positions).map (fun p => p.confidence)).length : ℚ) := by
  cases hcs : (observedOf positions).map (fun p => p.confidence) with
  | nil => exact absurd hcs h
  | cons c cs =>
    have hsome : confidenceStats positions = some
        ⟨(c :: cs).sum / ((c :: cs).length : ℚ), cs.foldl min c, cs.foldl max c,
         ((c :: cs).filter (fun v => (0.8 : ℚ) < v)).length,
         100 * (((c :: cs).filter (fun v => (0.8 : ℚ) < v)).length : ℚ)
           / ((c :: cs).length : ℚ)⟩ := by
      unfold confidenceStats
      rw [hcs]
    refine ⟨_, hsome, ?_, rfl, ?_, ?_, ?_, ?_, rfl, rfl⟩
    · intro m r hr
      unfold print_statistics at hr
      by_cases hm : m.total_leds = 0
      · rw [if_pos hm] at hr
        exact (Except.noConfusion hr)
      · rw [if_neg hm] at hr
        cases positions with
        | nil => exact (Except.noConfusion hr)
        | cons p ps =>
          cases hr
          exact hsome
    · rcases foldl_min_mem cs c with h' | h'
      · rw [h']
        exact List.mem_cons_self c cs
      · exact List.mem_cons_of_mem _ h'
    · intro x hx
      rcases List.mem_cons.mp hx with rfl | hx
      · exact foldl_min_le_init cs x
      · exact foldl_min_le_mem cs c x hx
    · rcases foldl_max_mem cs c with h' | h'
      · rw [h']
        exact List.mem_cons_self c cs
      · exact List.mem_cons_of_mem _ h'
    · intro x hx
      rcases List.mem_cons.mp hx with rfl | hx
      · exact init_le_foldl_max cs x
      · exact mem_le_foldl_max cs c x hx

/-- C2 witness: the spec's scenario — confidences 0.2, 0.5, 0.9, 1.0,
all observed — yields mean 0.65, min 0.2, max 1.0, two confidences
above 0.8, i.e. 50%. -/
theorem C2_confidence_statistics_witness :
    confidenceStats demoRecords = some ⟨13/20, 1/5, 1, 2, 50⟩ ∧
    (∃ s, confidenceStats demoRecords = some s) := by
  constructor
  · simp only [confidenceStats, demoRecords, observedOf, List.filter, List.map]
    norm_num
  · obtain ⟨s, hs, -⟩ := C2_confidence_statistics demoRecords (by decide)
    exact ⟨s, hs⟩

/-- C1 counterexample: at the default `num_points = 50` the step is
`50 // 8 = 6` and `range(0, 50, 6)` has nine indices (0, 6, ..., 48),
so the generator draws nine connecting segments, not eight. -/
theorem C1_counterexample :
    (draw_cone_outline 10 50).map (fun c => c.lines.length) = some 9 ∧
    (draw_cone_outline 10 50).map (fun c => c.lines.length) ≠ some 8 := by
  have h : (draw_cone_outline 10 50).map (fun c => c.lines.length) = some 9 := by
    simp only [draw_cone_outline, if_neg (by norm_num : ¬((50 : ℕ) / 8 = 0))]
    simp [rangeStep]
  exact ⟨h, by rw [h]; simp⟩

/-- C1 (amended): for `num_points ≥ 8` the cone outline generator
produces a bottom circle of radius `0.25·h` at z = 0 and a top circle of
radius `0.025·h` at z = h, both sampled at the `num_points` evenly
spaced linspace angles (consecutive angles differ by
`2π/(num_points-1)`), plus one connecting segment between the
corresponding bottom/top sample points at every `num_points // 8`-th
index — `⌈num_points / (num_points // 8)⌉` segments in all, at least
eight, and nine (not eight) at the default `num_points = 50`. -/
theorem C1_cone_outline (height : ℝ) (num_points : ℕ) (h8 : 8 ≤ num_points) :
    ∃ c, draw_cone_outline height num_points = some c ∧
      c.bottom.length = num_points ∧
      c.top.length = num_points ∧
      (∀ i, i < num_points →
        (c.bottom.getD i origin).x ^ 2 + (c.bottom.getD i origin).y ^ 2
            = (0.25 * height) ^ 2 ∧
        (c.bottom.getD i origin).z = 0 ∧
        (c.bottom.getD i origin).x
            = height * 0.25 * Real.cos (thetaAt num_points i) ∧
        (c.bottom.getD i origin).y
            = height * 0.25 * Real.sin (thetaAt num_points i)) ∧
      (∀ i, i < num_points →
        (c.top.getD i origin).x ^ 2 + (c.top.getD i origin).y ^ 2
            = (0.025 * height) ^ 2 ∧
        (c.top.getD i origin).z = height ∧
        (c.top.getD i origin).x
            = height * 0.025 * Real.cos (thetaAt num_points i) ∧
        (c.top.getD i origin).y
            = height * 0.025 * Real.sin (thetaAt num_points i)) ∧
      thetaAt num_points 0 = 0 ∧
      (∀ i, i + 1 < num_points →
        thetaAt num_points (i + 1) - thetaAt num_points i
          = 2 * Real.pi / ((num_points - 1 : ℕ) : ℝ)) ∧
      c.lines.length = (num_points + num_points / 8 - 1) / (num_points / 8) ∧
      8 ≤ c.lines.length ∧
      (∀ k, k < c.lines.length →
        (c.lines.getD k (origin, origin)).1
            = c.bottom.getD (k * (num_points / 8)) origin ∧
        (c.lines.getD k (origin, origin)).2
            = c.top.getD (k * (num_points / 8)) origin) := by
  have hs : ¬(num_points / 8 = 0) := by omega
  have hlen : ∀ α : Type, ∀ f : ℕ → α,
      ((List.range num_points).map f).length = num_points := by
    intro α f
    rw [List.length_map, List.length_range]
  simp only [draw_cone_outline, if_neg hs]
  refine ⟨_, rfl, hlen _ _, hlen _ _, ?_, ?_, ?_, ?_, ?_, ?_, ?_⟩
  · intro i hi
    rw [getD_map_range num_points i _ origin hi]
    refine ⟨?_, rfl, rfl, rfl⟩
    calc (height * 0.25 * Real.cos (thetaAt num_points i)) ^ 2
          + (height * 0.25 * Real.sin (thetaAt num_points i)) ^ 2
        = (0.25 * height) ^ 2
            * (Real.cos (thetaAt num_points i) ^ 2
              + Real.sin (thetaAt num_points i) ^ 2) := by ring
      _ = (0.25 * height) ^ 2 := by rw [Real.cos_sq_add_sin_sq, mul_one]
  · intro i hi
    rw [getD_map_range num_points i _ origin hi]
    refine ⟨?_, rfl, rfl, rfl⟩
    calc (height * 0.025 * Real.cos (thetaAt num_points i)) ^ 2
          + (height * 0.025 * Real.sin (thetaAt num_points i)) ^ 2
        = (0.025 * height) ^ 2
            * (Real.cos (thetaAt num_points i) ^ 2
              + Real.sin (thetaAt num_points i) ^ 2) := by ring
      _ = (0.025 * height) ^ 2 := by rw [Real.cos_sq_add_sin_sq, mul_one]
  · simp [thetaAt]
  · intro i hi
    have hd : ((num_points - 1 : ℕ) : ℝ) ≠ 0 := Nat.cast_ne_zero.mpr (by omega)
    unfold thetaAt
    push_cast
    field_simp
    ring
  · rw [List.length_map, rangeStep, List.length_map, List.length_range]
  · rw [List.length_map, rangeStep, List.length_map, List.length_range]
    rw [Nat.le_div_iff_mul_le (by omega : 0 < num_points / 8)]
    omega
  · intro k hk
    rw [List.length_map, rangeStep, List.length_map, List.length_range] at hk
    have hmm : (rangeStep num_points (num_points / 8)).map (fun i =>
        (((List.range num_points).map (fun i =>
          (⟨height * 0.25 * Real.cos (thetaAt num_points i),
            height * 0.25 * Real.sin (thetaAt num_points i), 0⟩ : Point3))).getD i origin,
         ((List.range num_points).map (fun i =>
          (⟨height * 0.025 * Real.cos (thetaAt num_points i),
            height * 0.025 * Real.sin (thetaAt num_points i),
            height⟩ : Point3))).getD i origin)) =
        (List.range ((num_points + num_points / 8 - 1) / (num_points / 8))).map
          (fun k =>
        (((List.range num_points).map (fun i =>
          (⟨height * 0.25 * Real.cos (thetaAt num_points i),
            height * 0.25 * Real.sin (thetaAt num_points i), 0⟩ : Point3))).getD
              (k * (num_points / 8)) origin,
         ((List.range num_points).map (fun i =>
          (⟨height * 0.025 * Real.cos (thetaAt num_points i),
            height * 0.025 * Real.sin (thetaAt num_points i),
            height⟩ : Point3))).getD (k * (num_points / 8)) origin)) := by
      rw [rangeStep, List.map_map]
      rfl
    rw [hmm, getD_map_range _ k _ (origin, origin) hk]
    exact ⟨rfl, rfl⟩

/-- C1 witness: at tree height 10 and the default 50 sample points the
outline exists and has nine connecting segments. -/
theorem C1_cone_outline_witness :
    (8 : ℕ) ≤ 50 ∧ ∃ c, draw_cone_outline 10 50 = some c ∧
      c.lines.length = 9 := by
  refine ⟨by norm_num, ?_⟩
  obtain ⟨c, hc, -, -, -, -, -, -, hlen, -, -⟩ :=
    C1_cone_outline 10 50 (by norm_num)
  exact ⟨c, hc, by rw [hlen]⟩

/-- C9: the cone outline generator succeeds exactly when
`num_points ≥ 8`; below 8 the segment loop's step `num_points // 8` is
zero and `range` raises. -/
theorem C9_cone_needs_eight_points (height : ℝ) (num_points : ℕ) :
    (draw_cone_outline height num_points).isSome = true ↔ 8 ≤ num_points := by
  unfold draw_cone_outline
  by_cases h : num_points / 8 = 0
  · rw [if_pos h]
    simp only [Option.isSome_none, Bool.false_eq_true, false_iff]
    omega
  · rw [if_neg h]
    simp only [Option.isSome_some, true_iff]
    omega

/-- C6: the 3D renderer's axis limits are x, y ∈ [-h/2, h/2] and
z ∈ [0, h] for every tree height h; at h = 10 they are [-5, 5] and
[0, 10]. -/
theorem C6_axis_limits (positions : List PosRecord) (m : Metadata)
    (show_confidence : Bool) (save_path : Option String) :
    ((visualize_3d positions m show_confidence save_path).1.xlim
        = (-(m.tree_height / 2), m.tree_height / 2) ∧
     (visualize_3d positions m show_confidence save_path).1.ylim
        = (-(m.tree_height / 2), m.tree_height / 2) ∧
     (visualize_3d positions m show_confidence save_path).1.zlim
        = (0, m.tree_height)) ∧
    ((visualize_3d [] mTen).1.xlim = (-5, 5) ∧
     (visualize_3d [] mTen).1.ylim = (-5, 5) ∧
     (visualize_3d [] mTen).1.zlim = (0, 10)) := by
  refine ⟨⟨rfl, rfl, rfl⟩, ?_, ?_, ?_⟩ <;> norm_num [visualize_3d, mTen]

/-- C7 counterexample: the renderers test the save path for Python
truthiness, so the empty-string save path falls through to the
interactive `plt.show()` branch and writes nothing. -/
theorem C7_counterexample :
    (visualize_3d demoRecords mTen false (some "")).2 = RenderOutput.shown ∧
    (visualize_2d_projections demoRecords mTen (some "")).2
        = RenderOutput.shown := by
  exact ⟨rfl, rfl⟩

/-- C7 (amended): for either renderer, a nonempty save path makes it
save the image to that path and print a confirmation (no interactive
display); with no save path — or with an empty-string save path, which
is falsy in Python — the figure is shown interactively and no file is
written. -/
theorem C7_save_or_show (positions : List PosRecord) (m : Metadata)
    (show_confidence : Bool) (save_path : Option String) :
    (∀ p, save_path = some p → p ≠ "" →
      (visualize_3d positions m show_confidence save_path).2
          = .saved p ("Saved visualization to " ++ p) ∧
      (visualize_2d_projections positions m save_path).2
          = .saved p ("Saved projections to " ++ p)) ∧
    (save_path = none →
      (visualize_3d positions m show_confidence save_path).2 = .shown ∧
      (visualize_2d_projections positions m save_path).2 = .shown) ∧
    (save_path = some "" →
      (visualize_3d positions m show_confidence save_path).2 = .shown ∧
      (visualize_2d_projections positions m save_path).2 = .shown) := by
  refine ⟨?_, ?_, ?_⟩
  · intro p hp hne
    subst hp
    have ht : pyTruthy (some p) = true := by
      simp only [pyTruthy, Bool.not_eq_true']
      exact Bool.eq_false_iff.mpr (fun h => hne ((String.isEmpty_iff p).mp h))
    constructor
    · simp [visualize_3d, ht]
    · simp [visualize_2d_projections, ht]
  · intro hp
    subst hp
    exact ⟨rfl, rfl⟩
  · intro hp
    subst hp
    exact ⟨rfl, rfl⟩

/-- C8 counterexample: with `--save ""` (empty string, falsy in Python)
and no other flag, the statistics report is printed even though
`--save` was given without `--stats`. -/
theorem C8_counterexample :
    statsPrinted ⟨false, some "", false, false⟩ = true ∧
    (⟨false, some "", false, false⟩ : Args).save ≠ none ∧
    (⟨false, some "", false, false⟩ : Args).stats = false ∧
    (⟨false, some "", false, false⟩ : Args).projections = false := by
  refine ⟨rfl, by simp, rfl, rfl⟩

/-- C8 (amended): statistics are printed iff `--stats` is given or
neither `--projections` nor a truthy (nonempty) `--save` is given, so a
nonempty `--save` alone or `--projections` alone suppresses the report
(an empty-string `--save` does not); `--stats` additionally suppresses
all rendering, and otherwise `main` calls the 2D or 3D renderer with
`args.save`. -/
theorem C8_stats_gating (a : Args) :
    (statsPrinted a = true ↔
      (a.stats = true ∨ (a.projections = false ∧ pyTruthy a.save = false))) ∧
    (renderCall a = .skipped ↔ a.stats = true) ∧
    (a.stats = false → a.projections = true →
      renderCall a = .projections a.save) ∧
    (a.stats = false → a.projections = false →
      renderCall a = .threeD a.confidence a.save) := by
  obtain ⟨c, s, pj, st⟩ := a
  refine ⟨?_, ?_, ?_, ?_⟩ <;>
    cases st <;> cases pj <;>
    simp [statsPrinted, renderCall]

/-- C10 counterexample: for the empty positions list with
`total_leds = 0`, the statistics printer fails at the percentage
division, not at the spatial extents — so the failure site does depend
on the metadata. -/
theorem C10_counterexample :
    print_statistics [] mZero = .error .divisionByZero ∧
    StatsError.divisionByZero ≠ StatsError.emptySequence := by
  exact ⟨rfl, by decide⟩

/-- C10 (amended): the statistics printer fails on the empty record
list for every metadata — at the spatial extents (min/max of an empty
sequence) whenever `total_leds ≠ 0`, but already at the percentage
division when `total_leds = 0` — whereas when only the observed subset
is empty the confidence block is merely skipped. -/
theorem C10_empty_positions (m : Metadata) (positions : List PosRecord) :
    (∃ e, print_statistics [] m = .error e) ∧
    (m.total_leds ≠ 0 → print_statistics [] m = .error .emptySequence) ∧
    (m.total_leds ≠ 0 → positions ≠ [] → observedOf positions = [] →
      ∃ r, print_statistics positions m = .ok r ∧ r.confidence = none) := by
  refine ⟨?_, ?_, ?_⟩
  · by_cases h : m.total_leds = 0
    · exact ⟨.divisionByZero, by simp [print_statistics, h]⟩
    · exact ⟨.emptySequence, by simp [print_statistics, h]⟩
  · intro h
    simp [print_statistics, h]
  · intro h hne hobs
    cases positions with
    | nil => exact absurd rfl hne
    | cons p ps =>
      refine ⟨⟨m.total_leds, m.tree_height,
        if m.num_cameras ≠ 0 then some m.num_cameras else none,
        100 * (m.num_observed : ℚ) / (m.total_leds : ℚ),
        100 * (m.num_predicted : ℚ) / (m.total_leds : ℚ),
        confidenceStats (p :: ps),
        minmaxOf p.x (ps.map (fun q => q.x)),
        minmaxOf p.y (ps.map (fun q => q.y)),
        minmaxOf p.z (ps.map (fun q => q.z)),
        minmaxOf p.height (ps.map (fun q => q.height)),
        minmaxOf p.angle (ps.map (fun q => q.angle))⟩, ?_, ?_⟩
      · unfold print_statistics
        rw [if_neg h]
      · show confidenceStats (p :: ps) = none
        unfold confidenceStats
        rw [show observedOf (p :: ps) = [] from hobs]
        rfl

